import Mathlib

/-!
# Verification of the APAFlow multi-tenant request gateway

A shallow embedding, in Lean 4, of the tenant-isolation, validation,
configuration-merge, query-rewriting and request/response logic of the
Flowise custom-node layer of the APAFlow repository
(`src/flowise/custom-nodes/**`, `src/flowise/middleware/tenant-isolation.js`).

JavaScript values that the code manipulates are modelled by the `Value`
type (JSON-compatible values); JS objects are association lists in
insertion order; `undefined`/absent string inputs are `Option String`
with JS string falsiness (`none` or `some ""`); a thrown exception is
`Except.error`; the single outbound `axios.post` is modelled by an
oracle giving the outcome of each attempt.
-/

set_option autoImplicit false

namespace APAFlow

/-- JSON-compatible JavaScript values (strings, numbers, booleans, null,
arrays, objects).  Objects are association lists in insertion order. -/
inductive Value where
  | vnull
  | vbool (b : Bool)
  | vnum (n : Int)
  | vstr (s : String)
  | varr (elems : List Value)
  | vobj (fields : List (String × Value))

/-- A JavaScript object: fields in insertion order. -/
abbrev Obj := List (String × Value)

/-- JS falsiness of an optional string input: `undefined`/`null` or `""`. -/
def falsyStr (o : Option String) : Bool :=
  match o with
  | none => true
  | some s => s = ""

/-- First value of a field of a JS object (objects built by the embedding
have unique keys, so first = only). -/
def getProp (o : Obj) (k : String) : Option Value :=
  (o.find? (fun p => p.1 = k)).map (fun p => p.2)

/-- JS property assignment `o[k] = v`: overwrite in place when the key is
present, else append. -/
def jsSet (o : Obj) (k : String) (v : Value) : Obj :=
  if o.any (fun p => p.1 = k) then
    o.map (fun p => if p.1 = k then (k, v) else p)
  else
    o ++ [(k, v)]

/-- JS object spread `{...a, ...b}`: right-biased *shallow* merge.  Keys of
`a` keep their position (values overwritten by `b` on collision), new keys
of `b` are appended in order. -/
def mergeObj (a b : Obj) : Obj :=
  b.foldl (fun acc p => jsSet acc p.1 p.2) a

/-- The fields contributed by spreading an arbitrary value into an object
literal: objects contribute their fields, anything else contributes
nothing relevant to the embedded code (primitives spread to `{}`). -/
def spreadFields (v : Value) : Obj :=
  match v with
  | .vobj fields => fields
  | _ => []

/-! ## Character classes and the UUID grammars -/

/-- ASCII hex digit, case-insensitive (`[0-9a-f]` under the `/i` flag). -/
def isHexDigitCI (c : Char) : Bool :=
  ('0' ≤ c && c ≤ '9') || ('a' ≤ c && c ≤ 'f') || ('A' ≤ c && c ≤ 'F')

/-- The inline UUID regex of the node sources
(`/^[0-9a-f]{8}-[0-9a-f]{4}-[1-5][0-9a-f]{3}-[89ab][0-9a-f]{3}-[0-9a-f]{12}$/i`
in `SMEFlowMentor.js`, `SMEFlowSupervisor.js`, `SMEFlowTenantManager.js`,
`SMEFlowAfricanIntegrations.js`): 8-4-4-4-12 hex groups, version nibble in
`1..5`, variant nibble in `8/9/a/b`, case-insensitive. -/
def uuidRegexTest (s : String) : Bool :=
  let l := s.data
  l.length = 36 &&
  (List.range 36).all (fun i =>
    let c := l.getD i ' '
    if i = 8 || i = 13 || i = 18 || i = 23 then c = '-'
    else if i = 14 then c = '1' || c = '2' || c = '3' || c = '4' || c = '5'
    else if i = 19 then c = '8' || c = '9' || c = 'a' || c = 'b' || c = 'A' || c = 'B'
    else isHexDigitCI c)

/-- The claim's canonical UUID grammar, written from the spec's words
("8-4-4-4-12 hex groups, version nibble in 1..5, variant nibble in
8/9/a/b", case-insensitive per §3).  It coincides with the inline regex
of the node sources. -/
def specCanonicalUuid (s : String) : Bool := uuidRegexTest s

/-- The nil UUID. -/
def nilUuid : String := "00000000-0000-0000-0000-000000000000"

/-- Models `validate` of the external `uuid` npm package (the dependency
required by `validation.js` and `tenant-isolation.js`; not part of this
repository).  Its published implementation matches the canonical UUID
regex case-insensitively and additionally accepts the nil UUID. -/
def uuidValidate (s : String) : Bool :=
  uuidRegexTest s || s = nilUuid

/-- The global dash-to-underscore replacement applied by the middleware
(`replace` with a global dash pattern): every dash becomes an underscore. -/
def replaceDashes (s : String) : String :=
  ⟨s.data.map (fun c => if c = '-' then '_' else c)⟩

/-! ## Tenant identity resolution (`tenant-isolation.js`, `middleware()`) -/

/-- The tenant context attached to a request by the middleware
(`req.tenant` in `tenant-isolation.js`, lines 44-48). -/
structure TenantContext where
  id : Option String
  schema : String
  isolated : Bool

/-- Outcome of the middleware's tenant resolution: either an HTTP error
response (status, error, message) or a tenant context. -/
inductive ResolveResult where
  | errorResp (status : Nat) (error : String) (message : String)
  | ok (ctx : TenantContext)

/-- The tenant-resolution logic of `TenantIsolationMiddleware.middleware()`
(`tenant-isolation.js`, lines 27-48): extract the header value, reject a
missing tenant when required, reject a non-UUID value, and otherwise build
the tenant context with schema `tenant_<id with dashes replaced>`. -/
def middlewareResolve (tenantId : Option String) (requireTenantId : Bool)
    (defaultSchema : String) : ResolveResult :=
  if falsyStr tenantId && requireTenantId then
    .errorResp 400 "Tenant ID required" "Header X-Tenant-ID is required for multi-tenant access"
  else if !falsyStr tenantId && !uuidValidate (tenantId.getD "") then
    .errorResp 400 "Invalid tenant ID format" "Tenant ID must be a valid UUID"
  else
    .ok { id := tenantId
          schema := if falsyStr tenantId then defaultSchema
                    else "tenant_" ++ replaceDashes (tenantId.getD "")
          isolated := !falsyStr tenantId }

/-- Whether middleware resolution produced a tenant context. -/
def resolveOk (r : ResolveResult) : Bool :=
  match r with
  | .ok _ => true
  | .errorResp _ _ _ => false

/-- The schema of a successful resolution (`""` on error; only used under
a success hypothesis). -/
def resolveSchema (r : ResolveResult) : String :=
  match r with
  | .ok ctx => ctx.schema
  | .errorResp _ _ _ => ""

/-! ## Tenant-aware query rewriting (`tenant-isolation.js`, `addTenantFilter`) -/

/-- Replace the first case-insensitive occurrence of `pat` in a character
list by `repl` (the behaviour of `String.prototype.replace` with a
case-insensitive, non-global literal pattern). -/
def replaceFirstCI (pat repl : List Char) : List Char → List Char
  | [] => []
  | c :: rest =>
    if (pat.map Char.toLower).isPrefixOf ((c :: rest).map Char.toLower) then
      repl ++ (c :: rest).drop pat.length
    else
      c :: replaceFirstCI pat repl rest

/-- Substring containment on character lists, as
`String.prototype.includes`. -/
def containsSub (pat : List Char) : List Char → Bool
  | [] => pat.isEmpty
  | c :: rest => pat.isPrefixOf (c :: rest) || containsSub pat rest

/-- Index of the first occurrence of a (non-empty) pattern in a character
list, as `String.prototype.indexOf` (with `none` for `-1`). -/
def indexOfSub (pat : List Char) : List Char → Option Nat
  | [] => none
  | c :: rest =>
    if pat.isPrefixOf (c :: rest) then some 0
    else (indexOfSub pat rest).map (fun i => i + 1)

/-- `TenantIsolationMiddleware.addTenantFilter` (`tenant-isolation.js`,
lines 85-104): when a tenant id is present, inject
`tenant_id = '<id>' AND` in place of the first (case-insensitive) `where`;
otherwise, when the lowered query contains `select` and `from`, rebuild
the query as `slice(0, fromIndex) + slice(fromIndex)` and append a fresh
`WHERE tenant_id = '<id>'`; otherwise return the query unchanged. -/
def addTenantFilter (sql : String) (tenantId : Option String) : String :=
  if falsyStr tenantId then sql
  else if containsSub "where".data (sql.data.map Char.toLower) then
    ⟨replaceFirstCI "where".data
      ("WHERE tenant_id = '" ++ tenantId.getD "" ++ "' AND").data sql.data⟩
  else if containsSub "select".data (sql.data.map Char.toLower) then
    match indexOfSub "from".data (sql.data.map Char.toLower) with
    | some i =>
        ⟨sql.data.take i ++ sql.data.drop i ++
          (" WHERE tenant_id = '" ++ tenantId.getD "" ++ "'").data⟩
    | none => sql
  else sql

/-! ## Input validation (`custom-nodes/utils/validation.js`) -/

/-- Result of `SMEFlowValidation.validateTenantId`. -/
structure TenantValidation where
  valid : Bool
  error : Option String
  tenantId : Option String

/-- `SMEFlowValidation.validateTenantId` (`validation.js`, lines 14-40):
missing tenant and non-UUID tenant are rejected; on success the
lower-cased id is returned.  (The `typeof` string check of the source is
vacuous here because the input is modelled as an optional string.) -/
def validateTenantId (tenantId : Option String) : TenantValidation :=
  if falsyStr tenantId then
    ⟨false, some "Tenant ID is required for multi-tenant isolation", none⟩
  else if !uuidValidate (tenantId.getD "") then
    ⟨false, some "Tenant ID must be a valid UUID format", none⟩
  else
    ⟨true, none, some (tenantId.getD "").toLower⟩

/-- Result of `SMEFlowValidation.validateJsonConfig`. -/
inductive JsonConfigResult where
  | ok (data : Value)
  | err (error : String)

/-- `SMEFlowValidation.validateJsonConfig` (`validation.js`, lines 49-75).
`jsonParse` stands for the platform's `JSON.parse` builtin. -/
def validateJsonConfig (jsonParse : String → Except String Value)
    (jsonString : Option String) (fieldName : String) (required : Bool) :
    JsonConfigResult :=
  if falsyStr jsonString || (jsonString.getD "").trim = "" then
    if required then .err (fieldName ++ " is required") else .ok (.vobj [])
  else
    match jsonParse (jsonString.getD "") with
    | .ok parsed => .ok parsed
    | .error m => .err ("Invalid JSON format in " ++ fieldName ++ ": " ++ m)

/-- `SMEFlowValidation.validateApiConfig` (`validation.js`, lines 167-188).
`urlOk` stands for success of the platform's `new URL(...)` constructor. -/
def validateApiConfig (urlOk : String → Bool)
    (apiUrl apiKey : Option String) : List String :=
  (if falsyStr apiUrl then ["API URL is required"]
   else if !urlOk (apiUrl.getD "") then ["Invalid API URL format"]
   else [])
  ++
  (if !falsyStr apiKey && (apiKey.getD "").length < 10 then
     ["API key appears to be too short (minimum 10 characters)"]
   else [])

/-- The node inputs consumed by `validateNodeInputs` and its per-node
helpers (all optional strings from the Flowise UI). -/
structure NodeInputs where
  tenantId : Option String
  apiUrl : Option String
  apiKey : Option String
  taskConfig : Option String
  inputData : Option String
  question : Option String
  businessContext : Option String
  workflowConfig : Option String
  agentCoordination : Option String
  integrationConfig : Option String

/-- The node types dispatched on by `validateNodeInputs`. -/
inductive NodeType where
  | automator
  | mentor
  | supervisor
  | african_integrations
  | other

/-- The accumulated result of `validateNodeInputs` (`validationResults`
in the source; the unused `warnings` array is omitted). -/
structure ValidationResults where
  valid : Bool
  errors : List String
  sanitizedTenantId : Option String

/-- Record a failed JSON-config validation on the accumulator, as the
per-node helpers do (`valid = false`, error appended). -/
def applyJsonCheck (r : ValidationResults) (res : JsonConfigResult) :
    ValidationResults :=
  match res with
  | .ok _ => r
  | .err e => { r with valid := false, errors := r.errors ++ [e] }

/-- `SMEFlowValidation.validateNodeInputs` (`validation.js`, lines
270-314) including the per-node helpers `validateAutomatorInputs`,
`validateMentorInputs`, `validateSupervisorInputs` and
`validateAfricanIntegrationsInputs` (lines 319-372). -/
def validateNodeInputs (jsonParse : String → Except String Value)
    (urlOk : String → Bool) (inputs : NodeInputs) (nodeType : NodeType) :
    ValidationResults :=
  let tv := validateTenantId inputs.tenantId
  let r0 : ValidationResults :=
    if tv.valid then ⟨true, [], tv.tenantId⟩
    else ⟨false, [tv.error.getD ""], none⟩
  let apiErrs := validateApiConfig urlOk inputs.apiUrl inputs.apiKey
  let r1 : ValidationResults :=
    if apiErrs.isEmpty then r0
    else { r0 with valid := false, errors := r0.errors ++ apiErrs }
  match nodeType with
  | .automator =>
      let r2 := applyJsonCheck r1
        (validateJsonConfig jsonParse inputs.taskConfig "Task Configuration" true)
      applyJsonCheck r2
        (validateJsonConfig jsonParse inputs.inputData "Input Data" false)
  | .mentor =>
      let r2 : ValidationResults :=
        if falsyStr inputs.question || (inputs.question.getD "").trim = "" then
          { r1 with valid := false
                    errors := r1.errors ++
                      ["Question or challenge is required for mentor guidance"] }
        else r1
      applyJsonCheck r2
        (validateJsonConfig jsonParse inputs.businessContext "Business Context" false)
  | .supervisor =>
      if falsyStr inputs.workflowConfig && falsyStr inputs.agentCoordination then
        { r1 with valid := false
                  errors := r1.errors ++
                    ["Either workflow configuration or agent coordination is required"] }
      else r1
  | .african_integrations =>
      applyJsonCheck r1
        (validateJsonConfig jsonParse inputs.integrationConfig
          "Integration Configuration" true)
  | .other => r1

/-! ## Dispatch outcomes and the response envelope -/

/-- Outcome of one outbound `axios.post` attempt: resolution with a
response body, rejection with an HTTP error response (non-2xx status), or
rejection without a response (network/timeout failure). -/
inductive DispatchOutcome where
  | success (body : Obj)
  | downstream (status : Nat) (message : String)
  | transport (message : String)

/-- The `error_code` field of a failure envelope: an HTTP status or the
sentinel `'UNKNOWN'`. -/
inductive ErrCode where
  | httpStatus (n : Nat)
  | unknown

/-- The idiom `error.response?.status || 'UNKNOWN'`: the numeric status
when truthy, the sentinel otherwise. -/
def jsStatusOr (s : Nat) : ErrCode :=
  if s = 0 then .unknown else .httpStatus s

/-- JS truthiness of a value. -/
def truthyV (v : Value) : Bool :=
  match v with
  | .vnull => false
  | .vbool b => b
  | .vnum n => n ≠ 0
  | .vstr s => s ≠ ""
  | .varr _ => true
  | .vobj _ => true

/-- The idiom `x || d` on an optional field read. -/
def jsOr (v : Option Value) (d : Value) : Value :=
  match v with
  | some x => if truthyV x then x else d
  | none => d

/-- The strict comparison `x !== false` on an optional field read (false
only when the field holds the boolean `false`). -/
def jsNotFalse (v : Option Value) : Bool :=
  match v with
  | some (.vbool false) => false
  | _ => true

/-- The response envelope returned by the node `init` methods.  Only the
fields referenced by the verified properties are modelled; fields a node
does not set are `none` (absent).  Wall-clock fields (`timestamp`,
`created_at`) and descriptive echo fields are outside the model. -/
structure Envelope where
  success : Bool
  error : Option String := none
  error_code : Option ErrCode := none
  tenant_id : Option String := none
  task_type : Option String := none
  status : Option Value := none
  fallback_mode : Option Bool := none
  fallback_reason : Option String := none
  market_config : Option Obj := none

/-- `JSON.parse(x || '{}')`: a falsy input parses the literal `'{}'`,
which always yields the empty object. -/
def parseOrEmpty (jsonParse : String → Except String Value)
    (o : Option String) : Except String Value :=
  if falsyStr o then .ok (.vobj []) else jsonParse (o.getD "")

/-! ## SMEFlowMentor (`agents/SMEFlowMentor/SMEFlowMentor.js`) -/

/-- Inputs of `SMEFlowMentor_Agents.init` (strings from the Flowise UI;
`guidanceType`/`industrySector` default inside `init` and do not affect
the verified properties). -/
structure MentorInputs where
  tenantId : Option String
  question : Option String
  businessContext : Option String
  marketConfig : Option String
  apiKey : Option String

/-- The Mentor's `defaultMarketConfig` (`SMEFlowMentor.js`, lines
175-191). -/
def mentorDefaultMarketConfig : Obj :=
  [ ("region", .vstr "africa-west"),
    ("currency", .vstr "NGN"),
    ("timezone", .vstr "Africa/Lagos"),
    ("languages", .varr [.vstr "en", .vstr "ha", .vstr "yo", .vstr "ig"]),
    ("market_focus", .vstr "urban"),
    ("business_environment", .vobj
      [ ("infrastructure", .vstr "developing"),
        ("digital_adoption", .vstr "growing"),
        ("regulatory_complexity", .vstr "moderate") ]),
    ("cultural_context", .vobj
      [ ("business_relationships", .vstr "relationship_focused"),
        ("decision_making", .vstr "consensus_driven"),
        ("communication_style", .vstr "respectful") ]) ]

/-- The envelope built by the Mentor's `catch` block (`SMEFlowMentor.js`,
lines 256-264): `success: false` with `error` and `error_code`. -/
def mentorFailureEnvelope (tenantId : Option String) (msg : String)
    (code : ErrCode) : Envelope :=
  { success := false, error := some msg, error_code := some code,
    tenant_id := tenantId }

/-- `SMEFlowMentor_Agents.init` (`SMEFlowMentor.js`, lines 145-266).
`jsonParse` is the platform's `JSON.parse`; `oracle n` is the outcome of
the `n`-th outbound `axios.post` attempt.  The returned `Nat` counts the
outbound attempts performed.  A thrown exception is `Except.error`: the
three guards at lines 155-167 run *before* the `try` block and therefore
throw out of `init`. -/
def mentorInit (jsonParse : String → Except String Value)
    (oracle : Nat → DispatchOutcome) (inp : MentorInputs) :
    Except String (Envelope × Nat) :=
  if falsyStr inp.tenantId then
    .error "Tenant ID is required for multi-tenant isolation"
  else if falsyStr inp.question then
    .error "Question/Challenge is required for mentor guidance"
  else if !uuidRegexTest (inp.tenantId.getD "") then
    .error "Tenant ID must be a valid UUID format"
  else
    match parseOrEmpty jsonParse inp.businessContext with
    | .error e => .ok (mentorFailureEnvelope inp.tenantId e .unknown, 0)
    | .ok _context =>
      match parseOrEmpty jsonParse inp.marketConfig with
      | .error e => .ok (mentorFailureEnvelope inp.tenantId e .unknown, 0)
      | .ok mc =>
        let finalMarketConfig := mergeObj mentorDefaultMarketConfig (spreadFields mc)
        match oracle 0 with
        | .success _body =>
            .ok ({ success := true, tenant_id := inp.tenantId,
                   market_config := some finalMarketConfig }, 1)
        | .downstream st msg =>
            .ok (mentorFailureEnvelope inp.tenantId msg (jsStatusOr st), 1)
        | .transport msg =>
            .ok (mentorFailureEnvelope inp.tenantId msg .unknown, 1)

/-! ## SMEFlowAutomator (`agents/SMEFlowAutomator/SMEFlowAutomator.js`) -/

/-- Inputs of `SMEFlowAutomator_Agents.init`.  The connected-node
inheritance (source lines 112-135) reads `tenantManager.tenant_id` and
`input.tenant_id`; those two reads are modelled as the optional strings
`tenantManagerTenantId` and `inputTenantId` (`none` when the connected
object is absent or carries no truthy `tenant_id`). -/
structure AutomatorInputs where
  tenantManagerTenantId : Option String
  inputTenantId : Option String
  taskType : Option String
  tenantId : Option String
  taskConfig : Option String
  inputData : Option String
  marketConfig : Option String
  apiKey : Option String

/-- The tenant id after the connected-node inheritance of
`SMEFlowAutomator.js`, lines 126-135. -/
def automatorEffectiveTenantId (inp : AutomatorInputs) : Option String :=
  if !falsyStr inp.tenantManagerTenantId then inp.tenantManagerTenantId
  else if !falsyStr inp.inputTenantId then inp.inputTenantId
  else inp.tenantId

/-- `nodeData.inputs?.taskType || 'api_integration'`. -/
def automatorTaskType (inp : AutomatorInputs) : String :=
  if falsyStr inp.taskType then "api_integration" else inp.taskType.getD ""

/-- The `defaultMarketConfig` object shared verbatim by
`SMEFlowAutomator.js` (lines 148-159) and `SMEFlowWorkflowExecutor.js`
(lines 169-180). -/
def automatorDefaultMarketConfig : Obj :=
  [ ("region", .vstr "africa-west"),
    ("currency", .vstr "NGN"),
    ("timezone", .vstr "Africa/Lagos"),
    ("languages", .varr [.vstr "en", .vstr "ha", .vstr "yo", .vstr "ig"]),
    ("phone_format", .vstr "+234"),
    ("business_hours", .vobj
      [ ("start", .vstr "08:00"),
        ("end", .vstr "18:00"),
        ("timezone", .vstr "Africa/Lagos") ]) ]

/-- The Automator's `finalMarketConfig` (`SMEFlowAutomator.js`, line
161): right-biased shallow spread of the defaults and the caller
override. -/
def automatorFinalMarketConfig (override : Obj) : Obj :=
  mergeObj automatorDefaultMarketConfig override

/-- The `execution_options` block of the Automator's outbound request
body (`SMEFlowAutomator.js`, lines 185-190): retry configuration that is
*sent to the backend*, not interpreted locally. -/
def automatorExecutionOptions : Obj :=
  [ ("async", .vbool false),
    ("timeout", .vnum 120),
    ("retry_on_failure", .vbool true),
    ("max_retries", .vnum 3) ]

/-- The envelope built by the Automator's `catch` block
(`SMEFlowAutomator.js`, lines 217-223): `success: false` with `error`,
`tenant_id` and `task_type` — and *no* `error_code` field. -/
def automatorFailureEnvelope (tenantId : Option String) (taskType : String)
    (msg : String) : Envelope :=
  { success := false, error := some msg, tenant_id := tenantId,
    task_type := some taskType }

/-- `SMEFlowAutomator_Agents.init` (`SMEFlowAutomator.js`, lines
110-225).  The Automator performs *no* outbound call (it returns mock
data, lines 197-212), so the attempt count is always 0.  The missing
tenant guard (line 138) throws before the `try` block. -/
def automatorInit (jsonParse : String → Except String Value)
    (inp : AutomatorInputs) : Except String (Envelope × Nat) :=
  let tid := automatorEffectiveTenantId inp
  let taskType := automatorTaskType inp
  if falsyStr tid then
    .error "Tenant ID is required for multi-tenant isolation"
  else
    match parseOrEmpty jsonParse inp.taskConfig with
    | .error e => .ok (automatorFailureEnvelope tid taskType e, 0)
    | .ok _config =>
      match parseOrEmpty jsonParse inp.inputData with
      | .error e => .ok (automatorFailureEnvelope tid taskType e, 0)
      | .ok _data =>
        match parseOrEmpty jsonParse inp.marketConfig with
        | .error e => .ok (automatorFailureEnvelope tid taskType e, 0)
        | .ok mc =>
          .ok ({ success := true, tenant_id := tid,
                 task_type := some taskType,
                 status := some (.vstr "completed"),
                 market_config :=
                   some (automatorFinalMarketConfig (spreadFields mc)) }, 0)

/-! ## SMEFlowTenantManager
(`utilities/SMEFlowTenantManager/SMEFlowTenantManager.js`) -/

/-- Inputs of `SMEFlowTenantManager_Utilities.init`. -/
structure TenantManagerInputs where
  operation : Option String
  tenantId : Option String
  tenantName : Option String
  tenantConfig : Option String
  marketSettings : Option String
  apiKey : Option String

/-- `SMEFlowTenantManager_Utilities.init` (`SMEFlowTenantManager.js`,
lines 89-169).  The guards at lines 98-106 throw before the `try` block.
Inside the `try`, line 110 parses `tenantConfig`; line 111 then reads the
identifier `marketConfig`, which is *not declared anywhere in the
function* (the input is named `marketSettings`), so under `"use strict"`
it raises `ReferenceError: marketConfig is not defined`, which the
`catch` (lines 160-167) converts into a failure envelope with
`error_code` `'UNKNOWN'`.  No path reaches the success return at line
132. -/
def tenantManagerInit (jsonParse : String → Except String Value)
    (inp : TenantManagerInputs) : Except String Envelope :=
  if falsyStr inp.tenantId then
    .error "Tenant ID is required for all tenant operations"
  else if !uuidRegexTest (inp.tenantId.getD "") then
    .error "Tenant ID must be a valid UUID format"
  else
    match parseOrEmpty jsonParse inp.tenantConfig with
    | .error e =>
        .ok { success := false, error := some e, error_code := some .unknown,
              tenant_id := inp.tenantId }
    | .ok _config =>
        .ok { success := false,
              error := some "marketConfig is not defined",
              error_code := some .unknown,
              tenant_id := inp.tenantId }

/-! ## SMEFlowWorkflowExecutor
(`workflows/SMEFlowWorkflowExecutor/SMEFlowWorkflowExecutor.js`) -/

/-- Inputs of `SMEFlowWorkflowExecutor_Workflows.init`, with the
connected-node inheritance (lines 148-155) flattened like the
Automator's. -/
structure WorkflowExecutorInputs where
  tenantManagerTenantId : Option String
  inputTenantId : Option String
  workflowType : Option String
  tenantId : Option String
  inputData : Option String
  workflowContext : Option String
  marketConfig : Option String
  businessRules : Option String
  apiKey : Option String

/-- The tenant id after the connected-node inheritance of
`SMEFlowWorkflowExecutor.js`, lines 148-155. -/
def workflowExecutorEffectiveTenantId (inp : WorkflowExecutorInputs) :
    Option String :=
  if !falsyStr inp.tenantManagerTenantId then inp.tenantManagerTenantId
  else if !falsyStr inp.inputTenantId then inp.inputTenantId
  else inp.tenantId

/-- `SMEFlowWorkflowExecutor_Workflows.init` (`SMEFlowWorkflowExecutor.js`,
lines 130-330).  The missing-tenant guard (line 158) throws before the
outer `try`.  Inside the outer `try`, the four JSON inputs are parsed
(lines 163-166); the single `axios.post` (line 242) sits in an *inner*
`try` whose `catch` (lines 273-308) returns a simulated success envelope
(`success: true`, `status: 'completed'`, `fallback_mode: true`) for *any*
rejection.  The outer `catch` (lines 310-329) reads `apiEndpoint`, which
is declared with `let` inside the `try` block and is out of scope there,
so a JSON-parse failure ends in `ReferenceError: apiEndpoint is not
defined` thrown out of `init`. -/
def workflowExecutorInit (jsonParse : String → Except String Value)
    (oracle : Nat → DispatchOutcome) (inp : WorkflowExecutorInputs) :
    Except String (Envelope × Nat) :=
  let tid := workflowExecutorEffectiveTenantId inp
  if falsyStr tid then
    .error "Tenant ID is required for multi-tenant workflow execution"
  else
    match parseOrEmpty jsonParse inp.inputData with
    | .error _ => .error "apiEndpoint is not defined"
    | .ok _parsedInputData =>
      match parseOrEmpty jsonParse inp.workflowContext with
      | .error _ => .error "apiEndpoint is not defined"
      | .ok _parsedContext =>
        match parseOrEmpty jsonParse inp.marketConfig with
        | .error _ => .error "apiEndpoint is not defined"
        | .ok mc =>
          match parseOrEmpty jsonParse inp.businessRules with
          | .error _ => .error "apiEndpoint is not defined"
          | .ok _rules =>
            let finalMarketConfig :=
              mergeObj automatorDefaultMarketConfig (spreadFields mc)
            match oracle 0 with
            | .success body =>
                .ok ({ success := jsNotFalse (getProp body "success")
                       status := some (jsOr (getProp body "status") (.vstr "completed"))
                       tenant_id := tid
                       market_config := some finalMarketConfig }, 1)
            | .downstream _st msg =>
                .ok ({ success := true
                       status := some (.vstr "completed")
                       fallback_mode := some true
                       fallback_reason := some msg
                       tenant_id := tid
                       market_config := some finalMarketConfig }, 1)
            | .transport msg =>
                .ok ({ success := true
                       status := some (.vstr "completed")
                       fallback_mode := some true
                       fallback_reason := some msg
                       tenant_id := tid
                       market_config := some finalMarketConfig }, 1)

/-! ## SMEFlowAfricanIntegrations
(`tools/SMEFlowAfricanIntegrations/SMEFlowAfricanIntegrations.js`) -/

/-- The `nigeria` entry of `countryDefaults`
(`SMEFlowAfricanIntegrations.js`, lines 225-231). -/
def nigeriaLocalization : Obj :=
  [ ("currency", .vstr "NGN"),
    ("language", .vstr "en"),
    ("timezone", .vstr "Africa/Lagos"),
    ("phone_format", .vstr "+234"),
    ("payment_methods", .varr
      [.vstr "paystack", .vstr "flutterwave", .vstr "bank_transfer"]) ]

/-- The `kenya` entry of `countryDefaults` (lines 232-238). -/
def kenyaLocalization : Obj :=
  [ ("currency", .vstr "KES"),
    ("language", .vstr "sw"),
    ("timezone", .vstr "Africa/Nairobi"),
    ("phone_format", .vstr "+254"),
    ("payment_methods", .varr
      [.vstr "mpesa", .vstr "paystack", .vstr "bank_transfer"]) ]

/-- The `south_africa` entry of `countryDefaults` (lines 239-245). -/
def southAfricaLocalization : Obj :=
  [ ("currency", .vstr "ZAR"),
    ("language", .vstr "en"),
    ("timezone", .vstr "Africa/Johannesburg"),
    ("phone_format", .vstr "+27"),
    ("payment_methods", .varr
      [.vstr "paystack", .vstr "ozow", .vstr "bank_transfer"]) ]

/-- The `ghana` entry of `countryDefaults` (lines 246-252). -/
def ghanaLocalization : Obj :=
  [ ("currency", .vstr "GHS"),
    ("language", .vstr "en"),
    ("timezone", .vstr "Africa/Accra"),
    ("phone_format", .vstr "+233"),
    ("payment_methods", .varr
      [.vstr "paystack", .vstr "flutterwave", .vstr "mtn_mobile_money"]) ]

/-- The `countryDefaults` table (`SMEFlowAfricanIntegrations.js`, lines
224-253): only four of the eight selectable countries have entries. -/
def countryDefaults : List (String × Obj) :=
  [ ("nigeria", nigeriaLocalization),
    ("kenya", kenyaLocalization),
    ("south_africa", southAfricaLocalization),
    ("ghana", ghanaLocalization) ]

/-- `countryDefaults[country] || countryDefaults.nigeria` (line 255). -/
def integrationsDefaultLocalization (country : String) : Obj :=
  (((countryDefaults.find? (fun p => p.1 = country)).map (fun p => p.2))).getD
    nigeriaLocalization

/-- `finalLocalization = { ...defaultLocalization, ...localization }`
(line 256). -/
def integrationsFinalLocalization (country : String) (localization : Obj) :
    Obj :=
  mergeObj (integrationsDefaultLocalization country) localization

/-- The leading fields of the `integrationRequest` body (lines 283-285):
the selected country is passed through verbatim. -/
def integrationsRequestBase (integrationType country tenantId : String) :
    Obj :=
  [ ("integration_type", .vstr integrationType),
    ("country", .vstr country),
    ("tenant_id", .vstr tenantId) ]

/-! ## Input sanitisation (`validation.js`, `sanitizeInput`) -/

/-- The character blacklist of `SMEFlowValidation.sanitizeInput`
(`validation.js`, line 229): `<`, `>`, `"`, `'`, `%`, `;`, `(`, `)`,
`&`, `+`. -/
def badChar (c : Char) : Bool :=
  c = '<' || c = '>' || c = '"' || c = '\'' || c = '%' ||
  c = ';' || c = '(' || c = ')' || c = '&' || c = '+'

/-- String sanitisation: delete every blacklisted character. -/
def sanitizeStr (s : String) : String :=
  ⟨s.data.filter (fun c => !badChar c)⟩

/-- The decimal digit character of `n < 10`. -/
def digitChar (n : Nat) : Char := Char.ofNat (48 + n)

/-- Decimal digit characters of a natural number (the JS string
representation of an array index, as produced by `Object.entries`). -/
def natDigits (n : Nat) : List Char :=
  if n < 10 then [digitChar n]
  else natDigits (n / 10) ++ [digitChar (n % 10)]
decreasing_by
  simp_wf
  omega

/-- The decimal string of a natural number. -/
def natRepr (n : Nat) : String := ⟨natDigits n⟩

mutual

/-- `SMEFlowValidation.sanitizeInput` (`validation.js`, lines 226-241):
strings are blacklist-filtered; objects (including arrays, whose
`typeof` is `'object'`) are rebuilt by assigning
`sanitized[sanitize(key)] = sanitize(value)` over `Object.entries`;
anything else (numbers, booleans, `null`) is returned unchanged. -/
def sanitizeInput : Value → Value
  | .vstr s => .vstr (sanitizeStr s)
  | .vobj fields => .vobj (sanitizeEntries [] fields)
  | .varr elems => .vobj (sanitizeArrEntries [] 0 elems)
  | .vnull => .vnull
  | .vbool b => .vbool b
  | .vnum n => .vnum n

/-- The entry loop of `sanitizeInput` over an object's entries,
accumulating JS property assignments. -/
def sanitizeEntries (acc : Obj) : List (String × Value) → Obj
  | [] => acc
  | (k, v) :: rest =>
      sanitizeEntries (jsSet acc (sanitizeStr k) (sanitizeInput v)) rest

/-- The entry loop of `sanitizeInput` over an array's index/value
entries (`Object.entries` on an array yields decimal index keys). -/
def sanitizeArrEntries (acc : Obj) (i : Nat) : List Value → Obj
  | [] => acc
  | v :: rest =>
      sanitizeArrEntries (jsSet acc (sanitizeStr (natRepr i)) (sanitizeInput v))
        (i + 1) rest

end

/-- A string without blacklisted characters (a fixed point of
`sanitizeStr`). -/
def CleanStr (s : String) : Prop := ∀ c ∈ s.data, badChar c = false

/-- The values `sanitizeInput` can output: no blacklisted character in
any string, object keys pairwise distinct, and no arrays (an array input
is rebuilt as a plain object). -/
inductive CleanV : Value → Prop where
  | vnull : CleanV .vnull
  | vbool (b : Bool) : CleanV (.vbool b)
  | vnum (n : Int) : CleanV (.vnum n)
  | vstr (s : String) (h : CleanStr s) : CleanV (.vstr s)
  | vobj (fs : List (String × Value))
      (hk : ∀ p ∈ fs, CleanStr (p : String × Value).1)
      (hv : ∀ p ∈ fs, CleanV (p : String × Value).2)
      (hnd : (fs.map Prod.fst).Nodup) : CleanV (.vobj fs)

/-! ## Supporting lemmas: JS objects, property update and the shallow
merge -/

theorem getProp_nil (k : String) : getProp [] k = none := rfl

theorem getProp_cons (p : String × Value) (rest : Obj) (k : String) :
    getProp (p :: rest) k = if p.1 = k then some p.2 else getProp rest k := by
  by_cases h : p.1 = k <;> simp [getProp, List.find?_cons, h]

theorem getProp_eq_none_of_not_mem (o : Obj) (k : String)
    (h : k ∉ o.map Prod.fst) : getProp o k = none := by
  induction o with
  | nil => rfl
  | cons p rest ih =>
    simp only [List.map_cons, List.mem_cons, not_or] at h
    rw [getProp_cons, if_neg (fun hk => h.1 hk.symm)]
    exact ih h.2

theorem any_key_iff_mem (o : Obj) (k : String) :
    o.any (fun p => p.1 = k) = true ↔ k ∈ o.map Prod.fst := by
  simp only [List.any_eq_true, List.mem_map, decide_eq_true_eq]

theorem getProp_map_update_self (o : Obj) (k : String) (v : Value)
    (h : o.any (fun p => p.1 = k) = true) :
    getProp (o.map (fun p => if p.1 = k then (k, v) else p)) k = some v := by
  induction o with
  | nil => simp at h
  | cons p rest ih =>
    by_cases hk : p.1 = k
    · simp [getProp_cons, hk]
    · have hrest : rest.any (fun p => p.1 = k) = true := by
        simpa [List.any_cons, hk] using h
      simp only [List.map_cons, if_neg hk]
      rw [getProp_cons, if_neg hk]
      exact ih hrest

theorem getProp_map_update_other (o : Obj) (k : String) (v : Value)
    (k' : String) (hne : k' ≠ k) :
    getProp (o.map (fun p => if p.1 = k then (k, v) else p)) k' =
      getProp o k' := by
  induction o with
  | nil => rfl
  | cons p rest ih =>
    by_cases hk : p.1 = k
    · simp only [List.map_cons, if_pos hk]
      rw [getProp_cons, getProp_cons, if_neg (fun h => hne h.symm),
        if_neg (fun h => hne (hk ▸ h).symm)]
      exact ih
    · simp only [List.map_cons, if_neg hk]
      rw [getProp_cons, getProp_cons]
      by_cases hk' : p.1 = k'
      · simp [hk']
      · rw [if_neg hk', if_neg hk']
        exact ih

theorem getProp_append_none (o₁ o₂ : Obj) (k : String)
    (h : getProp o₁ k = none) : getProp (o₁ ++ o₂) k = getProp o₂ k := by
  induction o₁ with
  | nil => rfl
  | cons p rest ih =>
    rw [getProp_cons] at h
    by_cases hk : p.1 = k
    · rw [if_pos hk] at h; exact absurd h (by simp)
    · rw [if_neg hk] at h
      rw [List.cons_append, getProp_cons, if_neg hk]
      exact ih h

theorem getProp_append_some (o₁ o₂ : Obj) (k : String) (v : Value)
    (h : getProp o₁ k = some v) : getProp (o₁ ++ o₂) k = some v := by
  induction o₁ with
  | nil => simp [getProp_nil] at h
  | cons p rest ih =>
    rw [getProp_cons] at h
    rw [List.cons_append, getProp_cons]
    by_cases hk : p.1 = k
    · rwa [if_pos hk] at *
    · rw [if_neg hk] at h ⊢
      exact ih h

theorem getProp_jsSet_self (o : Obj) (k : String) (v : Value) :
    getProp (jsSet o k v) k = some v := by
  unfold jsSet
  by_cases hmem : o.any (fun p => p.1 = k) = true
  · rw [if_pos hmem]
    exact getProp_map_update_self o k v hmem
  · rw [if_neg hmem]
    have hnone : getProp o k = none :=
      getProp_eq_none_of_not_mem o k (fun hk => hmem ((any_key_iff_mem o k).mpr hk))
    rw [getProp_append_none o _ k hnone, getProp_cons]
    simp

theorem getProp_jsSet_other (o : Obj) (k : String) (v : Value)
    (k' : String) (hne : k' ≠ k) :
    getProp (jsSet o k v) k' = getProp o k' := by
  unfold jsSet
  by_cases hmem : o.any (fun p => p.1 = k) = true
  · rw [if_pos hmem]
    exact getProp_map_update_other o k v k' hne
  · rw [if_neg hmem]
    by_cases hsome : ∃ w, getProp o k' = some w
    · obtain ⟨w, hw⟩ := hsome
      rw [getProp_append_some o _ k' w hw, hw]
    · have hnone : getProp o k' = none := by
        cases h : getProp o k' with
        | none => rfl
        | some w => exact absurd ⟨w, h⟩ hsome
      rw [getProp_append_none o _ k' hnone, hnone, getProp_cons,
        if_neg (fun h => hne h.symm)]
      rfl

theorem mergeObj_cons (a : Obj) (p : String × Value) (rest : Obj) :
    mergeObj a (p :: rest) = mergeObj (jsSet a p.1 p.2) rest := rfl

theorem getProp_mergeObj_none (a b : Obj) (k : String)
    (h : getProp b k = none) : getProp (mergeObj a b) k = getProp a k := by
  induction b generalizing a with
  | nil => rfl
  | cons p rest ih =>
    rw [getProp_cons] at h
    by_cases hp : p.1 = k
    · rw [if_pos hp] at h; exact absurd h (by simp)
    · rw [if_neg hp] at h
      rw [mergeObj_cons, ih _ h, getProp_jsSet_other _ _ _ _ (fun he => hp he.symm)]

theorem getProp_mergeObj_some (a b : Obj) (k : String) (v : Value)
    (hnd : (b.map Prod.fst).Nodup) (h : getProp b k = some v) :
    getProp (mergeObj a b) k = some v := by
  induction b generalizing a with
  | nil => simp [getProp_nil] at h
  | cons p rest ih =>
    rw [List.map_cons, List.nodup_cons] at hnd
    rw [getProp_cons] at h
    by_cases hp : p.1 = k
    · rw [if_pos hp] at h
      have hrest : getProp rest k = none :=
        getProp_eq_none_of_not_mem rest k (hp ▸ hnd.1)
      rw [mergeObj_cons, getProp_mergeObj_none _ _ _ hrest, hp,
        getProp_jsSet_self]
      exact h
    · rw [if_neg hp] at h
      rw [mergeObj_cons]
      exact ih _ hnd.2 h

/-! ## Claim C5 — right-biased shallow merge -/

/-- C5: the configuration merge is a right-biased shallow merge: any key
present in the caller overrides takes exactly the override's value, and
the defaults' `business_hours` `{start, end, timezone}` merged with the
override `business_hours` `{start: "10:00"}` yields exactly
`{start: "10:00"}` — the `end` key is lost, not inherited. -/
theorem c5_shallow_merge_right_bias :
    (∀ (ov : Obj) (k : String) (v : Value), (ov.map Prod.fst).Nodup →
        getProp ov k = some v →
        getProp (automatorFinalMarketConfig ov) k = some v) ∧
    getProp
      (automatorFinalMarketConfig
        [("business_hours", .vobj [("start", .vstr "10:00")])])
      "business_hours" = some (.vobj [("start", .vstr "10:00")]) := by
  constructor
  · intro ov k v hnd h
    exact getProp_mergeObj_some _ _ _ _ hnd h
  · rfl

/-- Witness for C5: the override value of the `currency` key survives the
merge with the defaults verbatim. -/
theorem c5_shallow_merge_right_bias_witness :
    getProp (automatorFinalMarketConfig [("currency", .vstr "USD")])
      "currency" = some (.vstr "USD") :=
  c5_shallow_merge_right_bias.1 [("currency", .vstr "USD")] "currency"
    (.vstr "USD") (by simp) rfl

/-! ## Claim C4 — unsupported regions do get a default injected -/

/-- C4 counterexample: `uganda` is selectable but has no entry in
`countryDefaults`, yet the cascade injects the full Nigeria defaults for
it (currency `NGN`, phone format `+234`) instead of relying on
caller-supplied values only. -/
theorem c4_counterexample :
    ("uganda" ∉ countryDefaults.map Prod.fst) ∧
    getProp (integrationsFinalLocalization "uganda" []) "currency" =
      some (.vstr "NGN") ∧
    getProp (integrationsFinalLocalization "uganda" []) "phone_format" =
      some (.vstr "+234") := by
  exact ⟨by decide, rfl, rfl⟩

/-- C4 amended: for a selectable region outside the supported entries of
the defaults table (`uganda`, `tanzania`, `rwanda`, `ethiopia`), the
merge falls back to the *Nigeria* defaults — identical to the behaviour
when the region is absent — rather than injecting nothing; the
unsupported value itself passes through into the outbound request without
error. -/
theorem c4_region_fallback_amended :
    ∀ c ∈ (["uganda", "tanzania", "rwanda", "ethiopia"] : List String),
      (∀ loc : Obj, integrationsFinalLocalization c loc =
          mergeObj nigeriaLocalization loc) ∧
      (∀ it tid : String,
        getProp (integrationsRequestBase it c tid) "country" =
          some (.vstr c)) := by
  intro c hc
  fin_cases hc <;> exact ⟨fun _ => rfl, fun _ _ => rfl⟩

/-- Witness for C4: applying the amended statement at `uganda`. -/
theorem c4_region_fallback_amended_witness :
    integrationsFinalLocalization "uganda" [] =
      mergeObj nigeriaLocalization [] :=
  (c4_region_fallback_amended "uganda" (by decide)).1 []

/-! ## Claim C2 — tenant resolution and namespace derivation -/

/-- C2 counterexample: the middleware accepts an *upper-case* UUID (the
library check is case-insensitive) but derives the namespace without
lower-casing, so the namespace differs from the claimed
`"tenant_" + lowercase(s)` form; moreover the nil UUID is accepted by the
library check although it fails the canonical grammar (its version nibble
is `0`). -/
theorem c2_counterexample :
    resolveOk (middlewareResolve
      (some "550E8400-E29B-41D4-A716-446655440000") true "public") = true ∧
    resolveSchema (middlewareResolve
      (some "550E8400-E29B-41D4-A716-446655440000") true "public") =
      "tenant_550E8400_E29B_41D4_A716_446655440000" ∧
    "tenant_550E8400_E29B_41D4_A716_446655440000" ≠
      "tenant_550e8400_e29b_41d4_a716_446655440000" ∧
    resolveOk (middlewareResolve (some nilUuid) true "public") = true ∧
    specCanonicalUuid nilUuid = false := by
  exact ⟨rfl, rfl, by decide, rfl, by decide⟩

/-- C2 amended: resolution with a required tenant succeeds iff the input
matches the canonical UUID grammar case-insensitively *or* is the nil
UUID (both accepted by the `uuid` library), and on success the namespace
is `"tenant_" +` the input with dashes replaced by underscores, with *no*
lower-casing of the input. -/
theorem c2_tenant_resolution_amended :
    ∀ s : String,
      (resolveOk (middlewareResolve (some s) true "public") = true ↔
        (specCanonicalUuid s = true ∨ s = nilUuid)) ∧
      (resolveOk (middlewareResolve (some s) true "public") = true →
        resolveSchema (middlewareResolve (some s) true "public") =
          "tenant_" ++ replaceDashes s) := by
  intro s
  by_cases hs : s = ""
  · subst hs
    refine ⟨⟨fun h => absurd h (by decide), fun h => ?_⟩,
      fun h => absurd h (by decide)⟩
    rcases h with h | h
    · exact absurd h (by decide)
    · exact absurd h (by decide)
  · have hfalsy : falsyStr (some s) = false := by
      simp [falsyStr, hs]
    by_cases huv : uuidValidate s = true
    · have hres : middlewareResolve (some s) true "public" =
          .ok { id := some s, schema := "tenant_" ++ replaceDashes s,
                isolated := true } := by
        unfold middlewareResolve
        rw [hfalsy]
        simp [huv]
      rw [hres]
      refine ⟨⟨fun _ => ?_, fun _ => rfl⟩, fun _ => rfl⟩
      have := huv
      unfold uuidValidate at this
      rcases Bool.or_eq_true_iff.mp this with h | h
      · exact Or.inl h
      · exact Or.inr (by simpa using h)
    · have hres : middlewareResolve (some s) true "public" =
          .errorResp 400 "Invalid tenant ID format"
            "Tenant ID must be a valid UUID" := by
        unfold middlewareResolve
        rw [hfalsy]
        simp [huv]
      rw [hres]
      refine ⟨⟨fun h => absurd h (by simp [resolveOk]), fun h => ?_⟩,
        fun h => absurd h (by simp [resolveOk])⟩
      exfalso
      apply huv
      unfold uuidValidate specCanonicalUuid at *
      rcases h with h | h
      · exact Bool.or_eq_true_iff.mpr (Or.inl h)
      · exact Bool.or_eq_true_iff.mpr (Or.inr (by simpa using h))

/-- Witness for C2: the amended statement applied to a concrete valid
lower-case UUID. -/
theorem c2_tenant_resolution_amended_witness :
    resolveSchema (middlewareResolve
      (some "550e8400-e29b-41d4-a716-446655440000") true "public") =
      "tenant_" ++ replaceDashes "550e8400-e29b-41d4-a716-446655440000" :=
  (c2_tenant_resolution_amended "550e8400-e29b-41d4-a716-446655440000").2
    (by decide)

/-! ## Claim C7 — supervisor validator completeness -/

/-- C7: a supervision-type validation in which neither the workflow
configuration nor the agent coordination is present always yields
`valid: false` with the error naming that at least one of the two is
required — whatever the other inputs, the JSON parser and the URL
checker do. -/
theorem c7_supervisor_validator_completeness :
    ∀ (jsonParse : String → Except String Value) (urlOk : String → Bool)
      (inputs : NodeInputs),
      falsyStr inputs.workflowConfig = true →
      falsyStr inputs.agentCoordination = true →
      (validateNodeInputs jsonParse urlOk inputs .supervisor).valid = false ∧
      "Either workflow configuration or agent coordination is required" ∈
        (validateNodeInputs jsonParse urlOk inputs .supervisor).errors := by
  intro p u inputs h1 h2
  unfold validateNodeInputs
  simp only [h1, h2, Bool.and_self, if_true]
  exact ⟨trivial, List.mem_append_right _ (by simp)⟩

/-- Witness for C7: concrete supervision inputs with both fields absent
fail with the expected error. -/
theorem c7_supervisor_validator_completeness_witness :
    (validateNodeInputs (fun _ => .ok .vnull) (fun _ => true)
      { tenantId := some "550e8400-e29b-41d4-a716-446655440000",
        apiUrl := some "http://smeflow:8000", apiKey := none,
        taskConfig := none, inputData := none, question := none,
        businessContext := none, workflowConfig := none,
        agentCoordination := none, integrationConfig := none }
      .supervisor).valid = false := by
  have h := c7_supervisor_validator_completeness (fun _ => .ok .vnull)
    (fun _ => true)
    { tenantId := some "550e8400-e29b-41d4-a716-446655440000",
      apiUrl := some "http://smeflow:8000", apiKey := none,
      taskConfig := none, inputData := none, question := none,
      businessContext := none, workflowConfig := none,
      agentCoordination := none, integrationConfig := none }
    rfl rfl
  exact h.1

/-! ## Claim C8 — the tenant manager can never succeed -/

/-- C8: every tenant-manager invocation whose tenant id passes the UUID
check returns an envelope with `success: false` (the `try` block always
raises — line 111 references the undefined identifier `marketConfig` —
and the `catch` converts that into a failure envelope); no input at all
can produce a success result. -/
theorem c8_tenant_manager_always_fails :
    ∀ (jsonParse : String → Except String Value)
      (inp : TenantManagerInputs),
      (∀ env, tenantManagerInit jsonParse inp = .ok env →
        env.success = false) ∧
      (falsyStr inp.tenantId = false →
        uuidRegexTest (inp.tenantId.getD "") = true →
        ∃ env, tenantManagerInit jsonParse inp = .ok env ∧
          env.success = false) := by
  intro p inp
  constructor
  · intro env h
    unfold tenantManagerInit at h
    split at h
    · exact absurd h (by simp)
    · split at h
      · exact absurd h (by simp)
      · split at h
        · cases h; rfl
        · cases h; rfl
  · intro h1 h2
    unfold tenantManagerInit
    rw [if_neg (by simp [h1]), if_neg (by simp [h2])]
    cases hp : parseOrEmpty p inp.tenantConfig with
    | error e => exact ⟨_, rfl, rfl⟩
    | ok c => exact ⟨_, rfl, rfl⟩

/-- Witness for C8: a concrete invocation with a valid UUID returns a
failure envelope. -/
theorem c8_tenant_manager_always_fails_witness :
    ∃ env, tenantManagerInit (fun _ => .ok .vnull)
      { operation := none,
        tenantId := some "550e8400-e29b-41d4-a716-446655440000",
        tenantName := none, tenantConfig := none, marketSettings := none,
        apiKey := none } = .ok env ∧ env.success = false :=
  (c8_tenant_manager_always_fails (fun _ => .ok .vnull) _).2 rfl (by decide)

/-! ## Claim C9 — workflow executor masks API failures as success -/

/-- C9: with a tenant id and parseable JSON inputs, any failure of the
outbound call (downstream error or transport failure) makes
`SMEFlowWorkflowExecutor.init` return `success: true`, status
`'completed'`, `fallback_mode: true` with a simulated result — the
failure is never surfaced as a failure envelope. -/
theorem c9_workflow_executor_fallback_success :
    ∀ (jsonParse : String → Except String Value)
      (oracle : Nat → DispatchOutcome) (inp : WorkflowExecutorInputs)
      (da db dc dd : Value) (msg : String),
      falsyStr (workflowExecutorEffectiveTenantId inp) = false →
      parseOrEmpty jsonParse inp.inputData = .ok da →
      parseOrEmpty jsonParse inp.workflowContext = .ok db →
      parseOrEmpty jsonParse inp.marketConfig = .ok dc →
      parseOrEmpty jsonParse inp.businessRules = .ok dd →
      ((∃ st, oracle 0 = .downstream st msg) ∨ oracle 0 = .transport msg) →
      ∃ env, workflowExecutorInit jsonParse oracle inp = .ok (env, 1) ∧
        env.success = true ∧ env.status = some (.vstr "completed") ∧
        env.fallback_mode = some true ∧ env.fallback_reason = some msg := by
  intro p oracle inp da db dc dd msg ht h1 h2 h3 h4 hfail
  unfold workflowExecutorInit
  rw [if_neg (by simp [ht]), h1, h2, h3, h4]
  rcases hfail with ⟨st, h5⟩ | h5 <;> rw [h5] <;>
    exact ⟨_, rfl, rfl, rfl, rfl, rfl⟩

/-- Witness for C9: a transport failure on a concrete invocation yields
the simulated-success fallback envelope. -/
theorem c9_workflow_executor_fallback_success_witness :
    ∃ env, workflowExecutorInit (fun _ => .ok .vnull)
      (fun _ => .transport "connect ECONNREFUSED")
      { tenantManagerTenantId := none, inputTenantId := none,
        workflowType := some "consulting",
        tenantId := some "550e8400-e29b-41d4-a716-446655440000",
        inputData := none, workflowContext := none, marketConfig := none,
        businessRules := none, apiKey := none } = .ok (env, 1) ∧
      env.success = true ∧ env.status = some (.vstr "completed") ∧
      env.fallback_mode = some true ∧
      env.fallback_reason = some "connect ECONNREFUSED" :=
  c9_workflow_executor_fallback_success (fun _ => .ok .vnull)
    (fun _ => .transport "connect ECONNREFUSED") _
    (.vobj []) (.vobj []) (.vobj []) (.vobj []) "connect ECONNREFUSED"
    rfl rfl rfl rfl rfl (Or.inr rfl)

/-! ## Claim C1 — envelope totality fails on two counts -/

/-- C1 counterexample: (a) the Mentor's missing-tenant validation failure
*throws* a raw exception instead of returning an envelope (the guard runs
before the `try` block); (b) the Automator's failure envelope for a
JSON-parse validation failure carries `error` but *no* `error_code`. -/
theorem c1_counterexample :
    mentorInit (fun _ => .ok .vnull) (fun _ => .success [])
      { tenantId := none, question := some "How do I grow my shop?",
        businessContext := none, marketConfig := none, apiKey := none } =
      .error "Tenant ID is required for multi-tenant isolation" ∧
    automatorInit (fun _ => .error "Unexpected token n in JSON at position 1")
      { tenantManagerTenantId := none, inputTenantId := none,
        taskType := none,
        tenantId := some "550e8400-e29b-41d4-a716-446655440000",
        taskConfig := some "\x7bnot json", inputData := none,
        marketConfig := none, apiKey := none } =
      .ok (automatorFailureEnvelope
        (some "550e8400-e29b-41d4-a716-446655440000") "api_integration"
        "Unexpected token n in JSON at position 1", 0) ∧
    (automatorFailureEnvelope
      (some "550e8400-e29b-41d4-a716-446655440000") "api_integration"
      "Unexpected token n in JSON at position 1").error_code = none := by
  exact ⟨rfl, rfl, rfl⟩

/-- C1 amended: the envelope contract holds only *inside* the `try`
blocks.  The Mentor returns an envelope for every in-`try` outcome —
JSON-parse failure, transport failure, downstream error and success —
with `success` set correctly and both `error` and `error_code` populated
on failure; but its missing-tenant guard throws a raw exception.  The
Automator likewise returns an envelope once its tenant guard passes, but
its failure envelope populates `error` only — never `error_code`. -/
theorem c1_envelope_partial_totality :
    (∀ (p : String → Except String Value) (oracle : Nat → DispatchOutcome)
        (inp : MentorInputs),
        falsyStr inp.tenantId = true →
        mentorInit p oracle inp =
          .error "Tenant ID is required for multi-tenant isolation") ∧
    (∀ (p : String → Except String Value) (oracle : Nat → DispatchOutcome)
        (inp : MentorInputs),
        falsyStr inp.tenantId = false → falsyStr inp.question = false →
        uuidRegexTest (inp.tenantId.getD "") = true →
        ∃ env n, mentorInit p oracle inp = .ok (env, n) ∧
          (env.success = false →
            env.error.isSome = true ∧ env.error_code.isSome = true) ∧
          (env.success = true → ∃ b, oracle 0 = .success b)) ∧
    (∀ (p : String → Except String Value) (inp : AutomatorInputs),
        falsyStr (automatorEffectiveTenantId inp) = false →
        ∃ env, automatorInit p inp = .ok (env, 0) ∧
          (env.success = false →
            env.error.isSome = true ∧ env.error_code = none)) := by
  refine ⟨?_, ?_, ?_⟩
  · intro p oracle inp h
    unfold mentorInit
    rw [if_pos h]
  · intro p oracle inp h1 h2 h3
    unfold mentorInit
    rw [if_neg (by simp [h1]), if_neg (by simp [h2]), if_neg (by simp [h3])]
    cases hb : parseOrEmpty p inp.businessContext with
    | error e =>
        exact ⟨_, 0, rfl, fun _ => ⟨rfl, rfl⟩,
          fun h => by simp [mentorFailureEnvelope] at h⟩
    | ok cb =>
      cases hm : parseOrEmpty p inp.marketConfig with
      | error e =>
          exact ⟨_, 0, rfl, fun _ => ⟨rfl, rfl⟩,
            fun h => by simp [mentorFailureEnvelope] at h⟩
      | ok cm =>
        cases ho : oracle 0 with
        | success body =>
            exact ⟨_, 1, rfl, fun h => by simp at h, fun _ => ⟨body, rfl⟩⟩
        | downstream st msg =>
            exact ⟨_, 1, rfl, fun _ => ⟨rfl, rfl⟩, fun h => by simp [mentorFailureEnvelope] at h⟩
        | transport msg =>
            exact ⟨_, 1, rfl, fun _ => ⟨rfl, rfl⟩, fun h => by simp [mentorFailureEnvelope] at h⟩
  · intro p inp h
    unfold automatorInit
    rw [if_neg (by simp [h])]
    cases ht : parseOrEmpty p inp.taskConfig with
    | error e => exact ⟨_, rfl, fun _ => ⟨rfl, rfl⟩⟩
    | ok c1 =>
      cases hi : parseOrEmpty p inp.inputData with
      | error e => exact ⟨_, rfl, fun _ => ⟨rfl, rfl⟩⟩
      | ok c2 =>
        cases hm : parseOrEmpty p inp.marketConfig with
        | error e => exact ⟨_, rfl, fun _ => ⟨rfl, rfl⟩⟩
        | ok c3 => exact ⟨_, rfl, fun h => by simp at h⟩

/-- Witness for C1: the amended statement applied to a concrete Mentor
invocation whose single outbound attempt succeeds, and to a concrete
Automator invocation. -/
theorem c1_envelope_partial_totality_witness :
    (∃ env n, mentorInit (fun _ => .ok .vnull) (fun _ => .success [])
      { tenantId := some "550e8400-e29b-41d4-a716-446655440000",
        question := some "How do I grow my shop?",
        businessContext := none, marketConfig := none, apiKey := none } =
        .ok (env, n) ∧
      (env.success = false →
        env.error.isSome = true ∧ env.error_code.isSome = true) ∧
      (env.success = true →
        ∃ b, (fun (_ : Nat) => DispatchOutcome.success ([] : Obj)) 0 =
          .success b)) ∧
    (∃ env, automatorInit (fun _ => .ok .vnull)
      { tenantManagerTenantId := none, inputTenantId := none,
        taskType := none,
        tenantId := some "550e8400-e29b-41d4-a716-446655440000",
        taskConfig := none, inputData := none, marketConfig := none,
        apiKey := none } = .ok (env, 0) ∧
      (env.success = false →
        env.error.isSome = true ∧ env.error_code = none)) := by
  constructor
  · exact c1_envelope_partial_totality.2.1 (fun _ => .ok .vnull)
      (fun _ => .success [])
      { tenantId := some "550e8400-e29b-41d4-a716-446655440000",
        question := some "How do I grow my shop?",
        businessContext := none, marketConfig := none, apiKey := none }
      rfl rfl (by decide)
  · exact c1_envelope_partial_totality.2.2 (fun _ => .ok .vnull)
      { tenantManagerTenantId := none, inputTenantId := none,
        taskType := none,
        tenantId := some "550e8400-e29b-41d4-a716-446655440000",
        taskConfig := none, inputData := none, marketConfig := none,
        apiKey := none }
      rfl

/-! ## Claim C6 — there is no local retry loop -/

/-- C6 counterexample: with a persistently failing transport, the Mentor
performs exactly *one* outbound attempt and returns the failure envelope
immediately — no re-attempt, no backoff — although the Automator's
request payload advertises `max_retries: 3` / `retry_on_failure: true`
(configuration merely forwarded to the backend). -/
theorem c6_counterexample :
    mentorInit (fun _ => .ok .vnull)
      (fun _ => .transport "connect ECONNREFUSED")
      { tenantId := some "550e8400-e29b-41d4-a716-446655440000",
        question := some "How do I grow my shop?",
        businessContext := none, marketConfig := none, apiKey := none } =
      .ok (mentorFailureEnvelope
        (some "550e8400-e29b-41d4-a716-446655440000")
        "connect ECONNREFUSED" .unknown, 1) ∧
    getProp automatorExecutionOptions "max_retries" = some (.vnum 3) ∧
    getProp automatorExecutionOptions "retry_on_failure" =
      some (.vbool true) := by
  exact ⟨rfl, rfl, rfl⟩

/-- C6 amended: the nodes never retry locally.  The Mentor performs at
most one outbound attempt per invocation and any transport error or
downstream status terminates immediately — after exactly one attempt —
as a failure envelope; the Automator performs no outbound attempt at
all, its retry settings (`max_retries: 3`) being payload forwarded to
the backend.  Boundedness therefore holds trivially: no invocation
retries indefinitely. -/
theorem c6_no_local_retry_amended :
    (∀ (p : String → Except String Value) (oracle : Nat → DispatchOutcome)
        (inp : MentorInputs) (env : Envelope) (n : Nat),
        mentorInit p oracle inp = .ok (env, n) → n ≤ 1) ∧
    (∀ (p : String → Except String Value) (inp : AutomatorInputs)
        (env : Envelope) (n : Nat),
        automatorInit p inp = .ok (env, n) → n = 0) ∧
    (∀ (p : String → Except String Value) (oracle : Nat → DispatchOutcome)
        (inp : MentorInputs) (cb cm : Value) (msg : String),
        falsyStr inp.tenantId = false → falsyStr inp.question = false →
        uuidRegexTest (inp.tenantId.getD "") = true →
        parseOrEmpty p inp.businessContext = .ok cb →
        parseOrEmpty p inp.marketConfig = .ok cm →
        oracle 0 = .transport msg →
        mentorInit p oracle inp =
          .ok (mentorFailureEnvelope inp.tenantId msg .unknown, 1)) ∧
    (∀ (p : String → Except String Value) (oracle : Nat → DispatchOutcome)
        (inp : MentorInputs) (cb cm : Value) (st : Nat) (msg : String),
        falsyStr inp.tenantId = false → falsyStr inp.question = false →
        uuidRegexTest (inp.tenantId.getD "") = true →
        parseOrEmpty p inp.businessContext = .ok cb →
        parseOrEmpty p inp.marketConfig = .ok cm →
        oracle 0 = .downstream st msg →
        mentorInit p oracle inp =
          .ok (mentorFailureEnvelope inp.tenantId msg (jsStatusOr st), 1)) := by
  refine ⟨?_, ?_, ?_, ?_⟩
  · intro p oracle inp env n h
    unfold mentorInit at h
    split at h
    · exact absurd h (by simp)
    · split at h
      · exact absurd h (by simp)
      · split at h
        · exact absurd h (by simp)
        · split at h
          · cases h; exact Nat.zero_le 1
          · split at h
            · cases h; exact Nat.zero_le 1
            · split at h <;> (cases h; exact le_refl 1)
  · intro p inp env n h
    simp only [automatorInit] at h
    split at h
    · exact absurd h (by simp)
    · split at h
      · cases h; rfl
      · split at h
        · cases h; rfl
        · split at h
          · cases h; rfl
          · cases h; rfl
  · intro p oracle inp cb cm msg h1 h2 h3 h4 h5 h6
    unfold mentorInit
    rw [if_neg (by simp [h1]), if_neg (by simp [h2]), if_neg (by simp [h3]),
      h4, h5, h6]
  · intro p oracle inp cb cm st msg h1 h2 h3 h4 h5 h6
    unfold mentorInit
    rw [if_neg (by simp [h1]), if_neg (by simp [h2]), if_neg (by simp [h3]),
      h4, h5, h6]

/-- Witness for C6: the amended statement applied to a concrete
invocation with a failing transport: exactly one attempt, immediate
failure envelope. -/
theorem c6_no_local_retry_amended_witness :
    mentorInit (fun _ => .ok .vnull)
      (fun _ => .transport "getaddrinfo ENOTFOUND smeflow")
      { tenantId := some "550e8400-e29b-41d4-a716-446655440000",
        question := some "Which market should I enter?",
        businessContext := none, marketConfig := none, apiKey := none } =
      .ok (mentorFailureEnvelope
        (some "550e8400-e29b-41d4-a716-446655440000")
        "getaddrinfo ENOTFOUND smeflow" .unknown, 1) :=
  c6_no_local_retry_amended.2.2.1 (fun _ => .ok .vnull)
    (fun _ => .transport "getaddrinfo ENOTFOUND smeflow")
    { tenantId := some "550e8400-e29b-41d4-a716-446655440000",
      question := some "Which market should I enter?",
      businessContext := none, marketConfig := none, apiKey := none }
    (.vobj []) (.vobj []) "getaddrinfo ENOTFOUND smeflow"
    rfl rfl (by decide) rfl rfl rfl

/-! ## Supporting lemmas: substring search and first-occurrence
replacement -/

theorem replaceFirstCI_spec (pat repl : List Char) (hpat : pat ≠ []) :
    ∀ l : List Char,
      containsSub (pat.map Char.toLower) (l.map Char.toLower) = true →
      ∃ pre w post, l = pre ++ w ++ post ∧
        w.map Char.toLower = pat.map Char.toLower ∧
        replaceFirstCI pat repl l = pre ++ repl ++ post := by
  intro l
  induction l with
  | nil =>
    intro h
    rw [List.map_nil] at h
    cases hp : pat.map Char.toLower with
    | nil => exact absurd (List.map_eq_nil_iff.mp hp) hpat
    | cons a t => rw [hp] at h; simp [containsSub, List.isEmpty] at h
  | cons c rest ih =>
    intro h
    simp only [List.map_cons] at h
    unfold containsSub at h
    by_cases hpre :
        (pat.map Char.toLower).isPrefixOf
          (Char.toLower c :: rest.map Char.toLower) = true
    · obtain ⟨t, ht⟩ := List.isPrefixOf_iff_prefix.mp hpre
      refine ⟨[], (c :: rest).take pat.length, (c :: rest).drop pat.length,
        ?_, ?_, ?_⟩
      · rw [List.nil_append, List.take_append_drop]
      · rw [List.map_take, List.map_cons, ← ht]
        have hlen : pat.length = (pat.map Char.toLower).length :=
          (List.length_map _ _).symm
        rw [hlen, List.take_left]
      · unfold replaceFirstCI
        simp only [List.map_cons]
        rw [if_pos hpre, List.nil_append]
    · have h2 : containsSub (pat.map Char.toLower)
          (rest.map Char.toLower) = true := by
        rcases Bool.or_eq_true_iff.mp h with hl | hr
        · exact absurd hl hpre
        · exact hr
      obtain ⟨pre, w, post, hl, hw, hr⟩ := ih h2
      refine ⟨c :: pre, w, post, ?_, hw, ?_⟩
      · simp [hl]
      · unfold replaceFirstCI
        simp only [List.map_cons]
        rw [if_neg hpre, hr]
        simp

theorem indexOfSub_of_containsSub (pat : List Char) (hpat : pat ≠ []) :
    ∀ l, containsSub pat l = true → ∃ i, indexOfSub pat l = some i := by
  intro l
  induction l with
  | nil =>
    intro h
    cases hp : pat with
    | nil => exact absurd hp hpat
    | cons a t => rw [hp] at h; simp [containsSub, List.isEmpty] at h
  | cons c rest ih =>
    intro h
    unfold containsSub at h
    unfold indexOfSub
    by_cases hp : pat.isPrefixOf (c :: rest) = true
    · rw [if_pos hp]; exact ⟨0, rfl⟩
    · rw [if_neg hp]
      have h2 : containsSub pat rest = true := by
        rcases Bool.or_eq_true_iff.mp h with hl | hr
        · exact absurd hl hp
        · exact hr
      obtain ⟨i, hi⟩ := ih h2
      exact ⟨i + 1, by rw [hi]; rfl⟩

theorem indexOfSub_eq_none_of_not_containsSub (pat : List Char) :
    ∀ l, containsSub pat l = false → indexOfSub pat l = none := by
  intro l
  induction l with
  | nil => intro _; rfl
  | cons c rest ih =>
    intro h
    unfold containsSub at h
    rw [Bool.or_eq_false_iff] at h
    unfold indexOfSub
    rw [if_neg (by simp [h.1]), ih h.2]
    rfl

/-! ## Claim C3 — query rewriting requires `select` in the no-`WHERE`
branch -/

/-- C3 counterexample: `DELETE FROM orders` has a `FROM` clause and no
`WHERE`, yet the rewriter returns it unchanged (the fallback branch also
requires the substring `select`), contradicting the claim that a new
`WHERE tenant_id` clause is appended whenever `FROM` is present. -/
theorem c3_counterexample :
    containsSub "where".data
      ("DELETE FROM orders".data.map Char.toLower) = false ∧
    containsSub "from".data
      ("DELETE FROM orders".data.map Char.toLower) = true ∧
    addTenantFilter "DELETE FROM orders" (some "t1") =
      "DELETE FROM orders" := by
  exact ⟨by decide, by decide, rfl⟩

/-- C3 amended: with no tenant id the query is returned unchanged; when
the query contains `where` (case-insensitively) the predicate
`tenant_id = '<id>' AND` replaces the first occurrence of the keyword,
preserving everything around it; when there is no `where`, a fresh
`WHERE tenant_id = '<id>'` clause is appended at the end of the query
*only if* the query also contains `select` (and `from`) — otherwise the
query passes through unchanged. -/
theorem c3_query_rewrite_amended :
    (∀ sql : String, addTenantFilter sql none = sql) ∧
    (∀ (sql : String) (tid : String), tid ≠ "" →
      (containsSub "where".data (sql.data.map Char.toLower) = true →
        ∃ pre w post, sql.data = pre ++ w ++ post ∧
          w.map Char.toLower = "where".data ∧
          (addTenantFilter sql (some tid)).data =
            pre ++ ("WHERE tenant_id = '" ++ tid ++ "' AND").data ++ post) ∧
      (containsSub "where".data (sql.data.map Char.toLower) = false →
        containsSub "select".data (sql.data.map Char.toLower) = true →
        containsSub "from".data (sql.data.map Char.toLower) = true →
        (addTenantFilter sql (some tid)).data =
          sql.data ++ (" WHERE tenant_id = '" ++ tid ++ "'").data) ∧
      (containsSub "where".data (sql.data.map Char.toLower) = false →
        (containsSub "select".data (sql.data.map Char.toLower) = false ∨
          containsSub "from".data (sql.data.map Char.toLower) = false) →
        addTenantFilter sql (some tid) = sql)) := by
  have hwl : "where".data.map Char.toLower = "where".data := by decide
  constructor
  · intro sql; rfl
  · intro sql tid htid
    have hfalsy : ¬ falsyStr (some tid) = true := by simp [falsyStr, htid]
    refine ⟨?_, ?_, ?_⟩
    · intro hwhere
      have hspec := replaceFirstCI_spec "where".data
        ("WHERE tenant_id = '" ++ tid ++ "' AND").data (by decide) sql.data
        (by rw [hwl]; exact hwhere)
      obtain ⟨pre, w, post, hl, hw, hr⟩ := hspec
      refine ⟨pre, w, post, hl, by rw [hw, hwl], ?_⟩
      unfold addTenantFilter
      rw [if_neg hfalsy, if_pos hwhere]
      simpa using hr
    · intro hwhere hselect hfrom
      obtain ⟨i, hi⟩ := indexOfSub_of_containsSub "from".data (by decide)
        (sql.data.map Char.toLower) hfrom
      unfold addTenantFilter
      rw [if_neg hfalsy, if_neg (by simp [hwhere]), if_pos hselect, hi]
      show sql.data.take i ++ sql.data.drop i ++
          (" WHERE tenant_id = '" ++ (some tid).getD "" ++ "'").data =
        sql.data ++ (" WHERE tenant_id = '" ++ tid ++ "'").data
      rw [List.take_append_drop, Option.getD_some]
    · intro hwhere hsf
      unfold addTenantFilter
      rw [if_neg hfalsy]
      rcases hsf with hsel | hfrom
      · rw [if_neg (by simp [hwhere]), if_neg (by simp [hsel])]
      · by_cases hsel : containsSub "select".data
            (sql.data.map Char.toLower) = true
        · rw [if_neg (by simp [hwhere]), if_pos hsel,
            indexOfSub_eq_none_of_not_containsSub "from".data _ hfrom]
        · rw [if_neg (by simp [hwhere]), if_neg hsel]

/-- Witness for C3: the amended statement applied to the spec's own
example, a bare `SELECT ... FROM` query with no `WHERE`. -/
theorem c3_query_rewrite_amended_witness :
    (addTenantFilter "SELECT * FROM orders" (some "t1")).data =
      "SELECT * FROM orders".data ++
        (" WHERE tenant_id = '" ++ "t1" ++ "'").data :=
  ((c3_query_rewrite_amended.2 "SELECT * FROM orders" "t1"
    (by decide)).2.1) (by decide) (by decide) (by decide)

/-! ## Supporting lemmas: sanitisation outputs are clean, clean values
are fixed points -/

theorem cleanStr_sanitizeStr (s : String) : CleanStr (sanitizeStr s) := by
  intro c hc
  have h := List.mem_filter.mp hc
  simpa using h.2

theorem sanitizeStr_of_cleanStr (s : String) (h : CleanStr s) :
    sanitizeStr s = s := by
  unfold sanitizeStr
  have hf : s.data.filter (fun c => !badChar c) = s.data :=
    List.filter_eq_self.mpr (fun c hc => by simp [h c hc])
  rw [hf]

theorem mem_jsSet (o : Obj) (k : String) (v : Value) :
    ∀ p ∈ jsSet o k v, p ∈ o ∨ p = (k, v) := by
  intro p hp
  unfold jsSet at hp
  by_cases hmem : o.any (fun q => q.1 = k) = true
  · rw [if_pos hmem] at hp
    obtain ⟨q, hq, he⟩ := List.mem_map.mp hp
    by_cases hqk : q.1 = k
    · right; rw [← he, if_pos hqk]
    · left; rw [← he, if_neg hqk]; exact hq
  · rw [if_neg hmem] at hp
    rcases List.mem_append.mp hp with h | h
    · left; exact h
    · right; simpa using h

theorem keys_jsSet_nodup (o : Obj) (k : String) (v : Value)
    (h : (o.map Prod.fst).Nodup) :
    ((jsSet o k v).map Prod.fst).Nodup := by
  unfold jsSet
  by_cases hmem : o.any (fun q => q.1 = k) = true
  · rw [if_pos hmem]
    have hkeys : (o.map (fun p => if p.1 = k then (k, v) else p)).map
        Prod.fst = o.map Prod.fst := by
      rw [List.map_map]
      apply List.map_congr_left
      intro p _
      by_cases hpk : p.1 = k
      · simp [hpk]
      · simp [hpk]
    rw [hkeys]; exact h
  · rw [if_neg hmem, List.map_append]
    rw [List.nodup_append]
    refine ⟨h, by simp, ?_⟩
    intro a ha hb
    simp only [List.map_cons, List.map_nil, List.mem_singleton] at hb
    subst hb
    exact hmem ((any_key_iff_mem o a).mpr ha)

theorem sanitizeEntries_spec :
    ∀ (fs : List (String × Value)) (acc : Obj),
      (∀ p ∈ acc, CleanStr (Prod.fst p) ∧ CleanV (Prod.snd p)) →
      (acc.map Prod.fst).Nodup →
      (∀ p ∈ fs, CleanV (sanitizeInput (Prod.snd p))) →
      (∀ p ∈ sanitizeEntries acc fs,
        CleanStr (Prod.fst p) ∧ CleanV (Prod.snd p)) ∧
      ((sanitizeEntries acc fs).map Prod.fst).Nodup := by
  intro fs
  induction fs with
  | nil => intro acc hacc hnd _; exact ⟨hacc, hnd⟩
  | cons q rest ih =>
    intro acc hacc hnd hclean
    obtain ⟨k, v⟩ := q
    simp only [sanitizeEntries]
    apply ih
    · intro p hp
      rcases mem_jsSet _ _ _ p hp with h | h
      · exact hacc p h
      · subst h
        exact ⟨cleanStr_sanitizeStr k, hclean (k, v) (List.mem_cons_self _ _)⟩
    · exact keys_jsSet_nodup _ _ _ hnd
    · intro p hp
      exact hclean p (List.mem_cons_of_mem _ hp)

theorem sanitizeArrEntries_spec :
    ∀ (vs : List Value) (acc : Obj) (i : Nat),
      (∀ p ∈ acc, CleanStr (Prod.fst p) ∧ CleanV (Prod.snd p)) →
      (acc.map Prod.fst).Nodup →
      (∀ v ∈ vs, CleanV (sanitizeInput v)) →
      (∀ p ∈ sanitizeArrEntries acc i vs,
        CleanStr (Prod.fst p) ∧ CleanV (Prod.snd p)) ∧
      ((sanitizeArrEntries acc i vs).map Prod.fst).Nodup := by
  intro vs
  induction vs with
  | nil => intro acc i hacc hnd _; exact ⟨hacc, hnd⟩
  | cons v rest ih =>
    intro acc i hacc hnd hclean
    simp only [sanitizeArrEntries]
    apply ih
    · intro p hp
      rcases mem_jsSet _ _ _ p hp with h | h
      · exact hacc p h
      · subst h
        exact ⟨cleanStr_sanitizeStr _, hclean v (List.mem_cons_self _ _)⟩
    · exact keys_jsSet_nodup _ _ _ hnd
    · intro w hw
      exact hclean w (List.mem_cons_of_mem _ hw)

theorem cleanV_sanitizeInput : ∀ v : Value, CleanV (sanitizeInput v) := by
  have main : ∀ n : Nat, ∀ v : Value, sizeOf v ≤ n →
      CleanV (sanitizeInput v) := by
    intro n
    induction n with
    | zero =>
      intro v h
      exfalso
      cases v <;> simp at h
    | succ n ih =>
      intro v h
      cases v with
      | vnull => exact CleanV.vnull
      | vbool b => exact CleanV.vbool b
      | vnum m => exact CleanV.vnum m
      | vstr s =>
        simp only [sanitizeInput]
        exact CleanV.vstr _ (cleanStr_sanitizeStr s)
      | vobj fs =>
        have hsz : 1 + sizeOf fs ≤ n + 1 := by simpa using h
        have hfs : ∀ p ∈ fs, CleanV (sanitizeInput (Prod.snd p)) := by
          intro p hp
          apply ih
          have h1 : sizeOf p < sizeOf fs := List.sizeOf_lt_of_mem hp
          obtain ⟨a, b⟩ := p
          have h2 : 1 + sizeOf a + sizeOf b < sizeOf fs := by simpa using h1
          simpa using by omega
        obtain ⟨hmem, hnd⟩ := sanitizeEntries_spec fs [] (by simp) (by simp) hfs
        simp only [sanitizeInput]
        exact CleanV.vobj _ (fun p hp => (hmem p hp).1)
          (fun p hp => (hmem p hp).2) hnd
      | varr vs =>
        have hsz : 1 + sizeOf vs ≤ n + 1 := by simpa using h
        have hvs : ∀ w ∈ vs, CleanV (sanitizeInput w) := by
          intro w hw
          apply ih
          have h1 : sizeOf w < sizeOf vs := List.sizeOf_lt_of_mem hw
          omega
        obtain ⟨hmem, hnd⟩ := sanitizeArrEntries_spec vs [] 0 (by simp)
          (by simp) hvs
        simp only [sanitizeInput]
        exact CleanV.vobj _ (fun p hp => (hmem p hp).1)
          (fun p hp => (hmem p hp).2) hnd
  exact fun v => main (sizeOf v) v le_rfl

theorem jsSet_append_of_not_mem (acc : Obj) (k : String) (v : Value)
    (h : k ∉ acc.map Prod.fst) : jsSet acc k v = acc ++ [(k, v)] := by
  unfold jsSet
  rw [if_neg (fun hmem => h ((any_key_iff_mem acc k).mp hmem))]

theorem sanitizeEntries_of_clean :
    ∀ (fs : List (String × Value)) (acc : Obj),
      (∀ p ∈ fs, sanitizeStr (Prod.fst p) = Prod.fst p) →
      (∀ p ∈ fs, sanitizeInput (Prod.snd p) = Prod.snd p) →
      ((acc ++ fs).map Prod.fst).Nodup →
      sanitizeEntries acc fs = acc ++ fs := by
  intro fs
  induction fs with
  | nil => intro acc _ _ _; simp [sanitizeEntries]
  | cons q rest ih =>
    intro acc hk hv hnd
    obtain ⟨k, v⟩ := q
    have hsk : sanitizeStr k = k := hk (k, v) (List.mem_cons_self _ _)
    have hsv : sanitizeInput v = v := hv (k, v) (List.mem_cons_self _ _)
    simp only [sanitizeEntries, hsk, hsv]
    have hknotin : k ∉ acc.map Prod.fst := by
      intro hin
      rw [List.map_append, List.nodup_append] at hnd
      exact hnd.2.2 hin (by simp)
    rw [jsSet_append_of_not_mem acc k v hknotin]
    have hnd2 : (((acc ++ [(k, v)]) ++ rest).map Prod.fst).Nodup := by
      rw [List.append_assoc, List.singleton_append]
      exact hnd
    rw [ih (acc ++ [(k, v)])
      (fun p hp => hk p (List.mem_cons_of_mem _ hp))
      (fun p hp => hv p (List.mem_cons_of_mem _ hp)) hnd2,
      List.append_assoc, List.singleton_append]

theorem sanitizeInput_of_cleanV : ∀ v : Value, CleanV v →
    sanitizeInput v = v := by
  intro v h
  induction h with
  | vnull => rfl
  | vbool b => rfl
  | vnum n => rfl
  | vstr s hs =>
    simp only [sanitizeInput]
    rw [sanitizeStr_of_cleanStr s hs]
  | vobj fs hk hv hnd ih =>
    simp only [sanitizeInput]
    rw [sanitizeEntries_of_clean fs []
      (fun p hp => sanitizeStr_of_cleanStr _ (hk p hp))
      (fun p hp => ih p hp)
      (by simpa using hnd)]
    rfl

/-! ## Claim C10 — sanitisation is idempotent -/

/-- C10: `sanitizeInput` is idempotent — applying it twice yields the
same result as applying it once, for every modelled JavaScript value
(strings, objects, arrays, numbers, booleans, null): it only deletes
characters from a fixed blacklist and recurses structurally over object
entries. -/
theorem c10_sanitize_idempotent :
    ∀ v : Value, sanitizeInput (sanitizeInput v) = sanitizeInput v :=
  fun v => sanitizeInput_of_cleanV _ (cleanV_sanitizeInput v)

end APAFlow
